import Mathlib

/-!
Verification of `launcher/resources/git-shim.py`, a command-interception shim
that stands in for `git`.  The shim classifies the current working directory
against a managed-directory list, resolves one intrinsic command locally,
falls through to the real binary when unmanaged, and otherwise forwards the
command to a local proxy over a socket and demultiplexes the line-delimited
JSON response stream.

The embedding below translates the Python source directly:
* JSON values (as produced by `json.loads`) become the inductive `PyVal`;
* the module-level receive loop becomes `receiveLoop`, returning the lines
  printed and how the process ends (`PyExit`);
* `find_managed_dir`, `handle_intrinsic` keep their source names;
* `os.path.commonprefix` and `os.path.relpath` (on already-absolute,
  already-normalized inputs, which is what `os.getcwd()` and
  `os.path.expanduser` supply here) are embedded as `commonprefix` / `relpath`;
* the top-level control flow becomes `git_shim` over an explicit environment
  `ShimEnv` capturing the ambient state the script reads.
-/

/-- A Python value as produced by `json.loads` on a response line or built for
`json.dumps`: null, booleans, integers, strings, arrays and objects.
(Floating-point JSON numbers are outside the modeled input space.) -/
inductive PyVal where
  | pnull : PyVal
  | pbool : Bool → PyVal
  | pint : Int → PyVal
  | pstr : String → PyVal
  | plist : List PyVal → PyVal
  | pdict : List (String × PyVal) → PyVal

/-- Python `len(v)`: defined for strings and lists (and objects); calling it on
`None`, a bool or an int raises `TypeError` (modeled as `none`). -/
def pyLen : PyVal → Option Nat
  | .pstr s => some s.length
  | .plist xs => some xs.length
  | .pdict fs => some fs.length
  | _ => none

/-- Python `v[i]` for the values on which the receive loop indexes after a
successful `len` check: a list yields its element, a string a one-character
string.  (Only reached once `pyLen` succeeded.) -/
def pyIndex : PyVal → Nat → PyVal
  | .plist xs, i => xs.getD i .pnull
  | .pstr s, i => .pstr (String.singleton (s.data.getD i ' '))
  | _, _ => .pnull

/-- Python `v == n` for an integer literal `n`: ints compare by value and
bools compare as 0/1 (`False == 0`, `True == 1` in Python); every other
type compares unequal to an int. -/
def pyEqInt : PyVal → Int → Bool
  | .pint m, n => m == n
  | .pbool b, n => (if b then (1 : Int) else 0) == n
  | _, _ => false

/-- Python `repr` of a value, as used by `str` on a list's elements. -/
def pyRepr : PyVal → String
  | .pnull => "None"
  | .pbool true => "True"
  | .pbool false => "False"
  | .pint n => toString n
  | .pstr s => String.singleton (Char.ofNat 39) ++ s ++ String.singleton (Char.ofNat 39)
  | .plist xs => "[" ++ String.intercalate ", " (xs.attach.map fun x => pyRepr x.1) ++ "]"
  | .pdict _ => "\x7b...\x7d"
decreasing_by
  have h := List.sizeOf_lt_of_mem x.2
  simp only [PyVal.plist.sizeOf_spec]
  omega

/-- Python `str(v)`, the conversion `print` applies to its argument: a string
prints as-is, other values print as their `repr`. -/
def pyStr : PyVal → String
  | .pstr s => s
  | .pnull => "None"
  | .pbool true => "True"
  | .pbool false => "False"
  | .pint n => toString n
  | v => pyRepr v

/-- How the shim process ends once control reaches the receive loop. -/
inductive PyExit where
  | exited : Int → PyExit
  /-- `sys.exit(v)` with a non-integer `v`: the message is printed to stderr
  and the process exits with status 1. -/
  | exitedMsg : String → PyExit
  /-- The `raise Exception("Unexpected response: " + reply)` lines reference
  the undefined name `reply`, so evaluating them raises an uncaught
  `NameError` (a fatal, nonzero-status crash, but not the intended message). -/
  | nameError : PyExit
  /-- `len()` applied to a non-sized value raises an uncaught `TypeError`. -/
  | typeError : PyExit
  /-- The `for` loop ran out of lines without hitting `sys.exit`; the module
  ends and the interpreter exits with status 0. -/
  | normalExit : PyExit
deriving DecidableEq

/-- Python `sys.exit(v)`: an integer becomes the exit status; `None` means
status 0; a bool is an int (False=0, True=1); any other value is printed to
stderr and the status is 1. -/
def sysExit : PyVal → PyExit
  | .pint n => .exited n
  | .pbool b => .exited (if b then 1 else 0)
  | .pnull => .exited 0
  | v => .exitedMsg (pyStr v)

/-- The module-level receive loop of git-shim.py:

    for line in socket_file.readlines():
        response = json.loads(line)
        if len(response) == 2:
            if response[0] == 0:
                print(response[1])
            elif response[0] == 1:
                sys.exit(response[1])
            else:
                raise Exception("Unexpected response: " + reply)
        else:
            raise Exception("Unexpected response: " + reply)

The input is the sequence of parsed response lines (`readlines` drains the
stream to EOF, so this is every line the peer sent).  The result is the list
of lines printed to stdout and the way the process ends; reaching the end of
the list without a `sys.exit` falls off the end of the module, `normalExit`. -/
def receiveLoop : List PyVal → List String × PyExit
  | [] => ([], .normalExit)
  | response :: rest =>
    match pyLen response with
    | none => ([], .typeError)
    | some n =>
      if n = 2 then
        if pyEqInt (pyIndex response 0) 0 then
          let r := receiveLoop rest
          (pyStr (pyIndex response 1) :: r.1, r.2)
        else if pyEqInt (pyIndex response 0) 1 then
          ([], sysExit (pyIndex response 1))
        else
          ([], .nameError)
      else
        ([], .nameError)

/-- A well-formed output frame `[0, "<line>"]` as sent by the proxy server. -/
def okFrame (s : String) : PyVal := .plist [.pint 0, .pstr s]

/-- A well-formed terminal frame `[1, <exit code>]`. -/
def exitFrame (c : Int) : PyVal := .plist [.pint 1, .pint c]

example : receiveLoop [okFrame "x", okFrame "y", exitFrame 3] = (["x", "y"], .exited 3) := rfl
example : receiveLoop [okFrame "x"] = (["x"], .normalExit) := rfl
example : receiveLoop [.plist [.pint 0, .pint 5], exitFrame 3] = (["5"], .exited 3) := rfl

/-- `os.path.commonprefix`, restricted to two items (the only way the shim
calls it): the longest common leading run of the two sequences.  Generic so
the same function serves both character sequences (strings, as in
`find_managed_dir`) and path-segment lists (as inside `os.path.relpath`). -/
def commonprefix {α : Type} [DecidableEq α] : List α → List α → List α
  | x :: xs, y :: ys => if x = y then x :: commonprefix xs ys else []
  | _, _ => []

theorem commonprefix_comm {α : Type} [DecidableEq α] (a b : List α) :
    commonprefix a b = commonprefix b a := by
  induction a generalizing b with
  | nil => cases b <;> rfl
  | cons x xs ih =>
    cases b with
    | nil => rfl
    | cons y ys =>
      simp only [ commonprefix]
      by_cases h : x = y
      · subst h; simp [ih]
      · rw [if_neg h, if_neg (fun hyx => h hyx.symm)]

theorem commonprefix_eq_left_iff {α : Type} [DecidableEq α] (a b : List α) :
    commonprefix a b = a ↔ a <+: b := by
  induction a generalizing b with
  | nil => simp [ commonprefix, List.nil_prefix]
  | cons x xs ih =>
    cases b with
    | nil => simp [ commonprefix, List.prefix_nil]
    | cons y ys =>
      by_cases h : x = y
      · subst h; simp [ commonprefix, ih, List.cons_prefix_cons]
      · rw [ commonprefix, if_neg h]
        constructor
        · intro hemp; exact absurd hemp.symm (List.cons_ne_nil x xs)
        · intro hpre; exact absurd (List.cons_prefix_cons.mp hpre).1 h

theorem commonprefix_eq_right_iff {α : Type} [DecidableEq α] (a b : List α) :
    commonprefix a b = b ↔ b <+: a := by
  rw [ commonprefix_comm]; exact commonprefix_eq_left_iff b a

theorem commonprefix_prefix_left {α : Type} [DecidableEq α] (a b : List α) :
    commonprefix a b <+: a := by
  induction a generalizing b with
  | nil => cases b <;> simp [ commonprefix]
  | cons x xs ih =>
    cases b with
    | nil => simp [ commonprefix, List.nil_prefix]
    | cons y ys =>
      by_cases h : x = y
      · subst h
        rw [ commonprefix, if_pos rfl]
        exact List.cons_prefix_cons.mpr ⟨rfl, ih ys⟩
      · rw [ commonprefix, if_neg h]
        exact List.nil_prefix

/-- `os.path.commonprefix([a, b])` on two strings, as called in
`find_managed_dir`. -/
def os_path_commonprefix (a b : String) : String :=
  String.mk ( commonprefix a.data b.data)

/-- The characters Python's default `str.strip()` removes: space, `\t`,
`\n`, `\r`, `\x0b` (vertical tab) and `\x0c` (form feed). -/
def isPySpace (c : Char) : Bool :=
  c = ' ' ∨ c = '\t' ∨ c = '\n' ∨ c = '\r' ∨ c = '\x0b' ∨ c = '\x0c'

/-- Python `line.strip()`: drop leading and trailing whitespace. -/
def pyStrip (s : String) : String :=
  String.mk (((s.data.dropWhile isPySpace).reverse.dropWhile isPySpace).reverse)

example : pyStrip " /a/b\n" = "/a/b" := rfl

/-- The loop body of `find_managed_dir`:

    for line in f.readlines():
        dirname = line.strip()
        if os.path.commonprefix([path, dirname]) == dirname:
            return dirname

Falls through to the final `return ""` when no line matches. -/
def find_managed_dir_loop (path : String) : List String → String
  | [] => ""
  | line :: rest =>
    let dirname := pyStrip line
    if os_path_commonprefix path dirname = dirname then dirname
    else find_managed_dir_loop path rest

/-- `find_managed_dir(path)`.  The ambient state it reads — whether
`~/.devbox/managed_dirs` exists and, if so, its lines — is passed explicitly:
`none` models an absent file, `some lines` the raw lines of a present one. -/
def find_managed_dir (path : String) (dirfile : Option (List String)) : String :=
  match dirfile with
  | none => ""
  | some lines => find_managed_dir_loop path lines

/-- `handle_intrinsic(root)`.  `argv` is the ambient `sys.argv` (its head is
the program name).  The source either calls `sys.exit(0)` after printing
`root` — modeled as `some (root, 0)`, the printed line and exit status — or
returns, modeled as `none`:

    if len(sys.argv) > 1 and sys.argv[1:] == ["rev-parse", "--show-toplevel"]:
        print(root)
        sys.exit(0)
-/
def handle_intrinsic (argv : List String) (root : String) : Option (String × Int) :=
  if 1 < argv.length ∧ argv.tail = ["rev-parse", "--show-toplevel"] then
    some (root, 0)
  else
    none

/-- Python `p.split('/')` on the underlying character list: split at every
slash, keeping empty pieces. -/
def splitOnSlash : List Char → List Char → List String
  | [], acc => [String.mk acc.reverse]
  | c :: rest, acc =>
    if c = '/' then String.mk acc.reverse :: splitOnSlash rest []
    else splitOnSlash rest (c :: acc)

example : splitOnSlash "/a//b".data [] = ["", "a", "", "b"] := rfl

/-- Split a path into its nonempty `/`-separated segments, as
`[x for x in p.split(sep) if x]` does inside `posixpath.relpath`. -/
def pathSegs (p : String) : List String :=
  (splitOnSlash p.data []).filter (fun s => decide (s ≠ ""))

/-- The segment list `rel_list` computed by `posixpath.relpath(path, start)`:
pad with `".."` for every segment of `start` beyond the common segment run,
then append the remainder of `path`.  (`abspath` is the identity here: both
arguments the shim passes are absolute and normalized.) -/
def relSegs (path start : String) : List String :=
  let start_list := pathSegs start
  let path_list := pathSegs path
  let i := ( commonprefix start_list path_list).length
  List.replicate (start_list.length - i) ".." ++ path_list.drop i

/-- `posixpath.join(*rel_list)` on a list of nonempty relative segments:
interpose `/`. -/
def joinSegs : List String → String
  | [] => ""
  | [s] => s
  | s :: rest => s ++ "/" ++ joinSegs rest

/-- `os.path.relpath(path, start)` on absolute, normalized inputs: an empty
`rel_list` yields `os.curdir` (`"."`), otherwise the joined segments. -/
def relpath (path start : String) : String :=
  match relSegs path start with
  | [] => "."
  | segs => joinSegs segs

example : relpath "/home/user/proj/sub" "/home/user" = "proj/sub" := rfl
example : relpath "/etc/x" "/home/user" = "../../etc/x" := rfl
example : relpath "/home/user" "/home/user" = "." := rfl

/-- The proxy request, `{ "workingDir": relative_dir, "cmd": ["git"] + sys.argv[1:] }`. -/
structure ProxyRequest where
  workingDir : String
  cmd : List String
deriving DecidableEq, Repr

/-- The JSON value `json.dumps` serializes for a request: an object with the
two fields `workingDir` (a string) and `cmd` (an array of strings). -/
def encodeRequest (r : ProxyRequest) : PyVal :=
  .pdict [("workingDir", .pstr r.workingDir), ("cmd", .plist (r.cmd.map .pstr))]

/-- Key lookup in a decoded JSON object. -/
def lookupField (fs : List (String × PyVal)) (k : String) : Option PyVal :=
  match fs.find? (fun p => p.1 == k) with
  | some p => some p.2
  | none => none

/-- Read a JSON array of strings back as a string list; `none` when any
element is not a string. -/
def asStrList : List PyVal → Option (List String)
  | [] => some []
  | .pstr s :: rest => (asStrList rest).map (fun l => s :: l)
  | _ => none

/-- What a server decoding the request JSON recovers: the `workingDir` string
and the `cmd` string array, `none` if the shape is wrong. -/
def decodeRequest (v : PyVal) : Option ProxyRequest :=
  match v with
  | .pdict fs =>
    match lookupField fs "workingDir", lookupField fs "cmd" with
    | some (.pstr wd), some (.plist cs) =>
      match asStrList cs with
      | some cmd => some ⟨wd, cmd⟩
      | none => none
    | _, _ => none
  | _ => none

/-- `PORT=20280`. -/
def PORT : Nat := 20280

/-- `BUF_SIZE=4096`. -/
def BUF_SIZE : Nat := 4096

/-- `REAL_GIT="/usr/bin/git"`: the hard-coded fallback binary path. -/
def REAL_GIT : String := "/usr/bin/git"

/-- The ambient state a run of the script reads: `sys.argv`, `os.getcwd()`,
the home directory `os.path.expanduser("~")`, the managed-dirs file (absent
or its lines), whether `s.connect(('127.0.0.1', PORT))` succeeds, and the
parsed response lines the server sends before closing the stream. -/
structure ShimEnv where
  argv : List String
  cwd : String
  home : String
  managedFile : Option (List String)
  connectOk : Bool
  responses : List PyVal

/-- The observable outcome of one run of the script. -/
inductive ShimResult where
  /-- `os.execv(prog, argvec)`: the process image is replaced; stdout, stderr
  and the exit status are whatever the executed binary produces. -/
  | execv : (prog : String) → (argvec : List String) → ShimResult
  /-- `handle_intrinsic` printed a line and exited with a status. -/
  | intrinsic : (line : String) → (code : Int) → ShimResult
  /-- The connect failed: one diagnostic line printed, `sys.exit(1)`, and no
  request was ever built or sent. -/
  | connectFail : (diagnostic : String) → ShimResult
  /-- The request was sent and the receive loop ran: the request, the lines
  it printed, and how the process ended. -/
  | proxied : (request : ProxyRequest) → (output : List String) → (ending : PyExit) → ShimResult
deriving DecidableEq

/-- The module-level control flow of git-shim.py:

    root_managed = find_managed_dir(os.getcwd())
    if root_managed == "":
        os.execv(REAL_GIT, [REAL_GIT] + sys.argv[1:])
    handle_intrinsic(root_managed)
    s = socket.socket(...)
    try: s.connect(('127.0.0.1', PORT))
    except socket.error:
        print("Unable to connect to git proxy; is your devbox syncer running?")
        sys.exit(1)
    relative_dir = os.path.relpath(os.getcwd(), os.path.expanduser("~"))
    cmd = json.dumps({ "workingDir": relative_dir, "cmd": ["git"] + sys.argv[1:] })
    s.send(...); <receive loop>
-/
def git_shim (e : ShimEnv) : ShimResult :=
  let root_managed := find_managed_dir e.cwd e.managedFile
  if root_managed = "" then
    .execv REAL_GIT (REAL_GIT :: e.argv.tail)
  else
    match handle_intrinsic e.argv root_managed with
    | some lc => .intrinsic lc.1 lc.2
    | none =>
      if e.connectOk then
        let relative_dir := relpath e.cwd e.home
        let request : ProxyRequest := ⟨relative_dir, "git" :: e.argv.tail⟩
        let r := receiveLoop e.responses
        .proxied request r.1 r.2
      else
        .connectFail "Unable to connect to git proxy; is your devbox syncer running?"

/-- Lines the shim itself prints to stdout (empty for `execv`, where the real
binary takes over). -/
def ShimResult.printedLines : ShimResult → List String
  | .execv _ _ => []
  | .intrinsic line _ => [line]
  | .connectFail msg => [msg]
  | .proxied _ out _ => out

/-- The shim process's exit status; `none` when the process image was
replaced (the status is then the real binary's). -/
def ShimResult.exitStatus : ShimResult → Option Int
  | .execv _ _ => none
  | .intrinsic _ code => some code
  | .connectFail _ => some 1
  | .proxied _ _ (.exited c) => some c
  | .proxied _ _ (.exitedMsg _) => some 1
  | .proxied _ _ .nameError => some 1
  | .proxied _ _ .typeError => some 1
  | .proxied _ _ .normalExit => some 0

/-- The request sent to the proxy, if any was. -/
def ShimResult.requestSent : ShimResult → Option ProxyRequest
  | .proxied req _ _ => some req
  | _ => none

/-! ### Helper lemmas -/

theorem os_path_commonprefix_eq_right_iff (a b : String) :
    os_path_commonprefix a b = b ↔ b.data <+: a.data := by
  rw [← commonprefix_eq_right_iff a.data b.data]
  unfold os_path_commonprefix
  cases b with
  | mk l =>
    constructor
    · intro h; exact congrArg String.data h
    · intro h; rw [h]

theorem asStrList_map_pstr (l : List String) :
    asStrList (l.map PyVal.pstr) = some l := by
  induction l with
  | nil => rfl
  | cons s rest ih => simp [asStrList, ih]

theorem decode_encode (r : ProxyRequest) :
    decodeRequest (encodeRequest r) = some r := by
  cases r with
  | mk wd cmd =>
    simp [decodeRequest, encodeRequest, lookupField, List.find?, asStrList_map_pstr]

/-- In the proxied branch, the request the shim builds is exactly
`{ workingDir: relpath(cwd, home), cmd: ["git"] + argv[1:] }`. -/
theorem git_shim_proxied_request (e : ShimEnv) (req : ProxyRequest)
    (out : List String) (ending : PyExit)
    (h : git_shim e = .proxied req out ending) :
    req = ⟨relpath e.cwd e.home, "git" :: e.argv.tail⟩ := by
  unfold git_shim at h
  by_cases hroot : find_managed_dir e.cwd e.managedFile = ""
  · rw [if_pos hroot] at h; cases h
  · rw [if_neg hroot] at h
    cases hi : handle_intrinsic e.argv (find_managed_dir e.cwd e.managedFile) with
    | some lc => rw [hi] at h; cases h
    | none =>
      rw [hi] at h
      by_cases hc : e.connectOk
      · rw [if_pos hc] at h
        cases h
        rfl
      · rw [if_neg hc] at h; cases h

/-- The commonprefix of two sequences is strictly shorter than the first
when the first is not a prefix of the second. -/
theorem commonprefix_length_lt {α : Type} [DecidableEq α] (a b : List α)
    (h : ¬ a <+: b) : ( commonprefix a b).length < a.length := by
  have hpre := commonprefix_prefix_left a b
  have hle := hpre.length_le
  rcases lt_or_eq_of_le hle with hlt | heq
  · exact hlt
  · exact absurd ((commonprefix_eq_left_iff a b).mp (hpre.eq_of_length heq)) h

/-! ### Claims -/

/-- C1: the claim says that when the response stream closes before any tag-1
frame, the client fails fatally rather than exiting 0.  The code does the
opposite: on the spec's own scenario (peer closes after sending only
`[0,"x"]`) the loop runs out of lines, the module ends, and the interpreter
exits with status 0 — a fabricated success code.  This theorem records the
code's actual behavior at that failing input. -/
theorem C1_premature_close_exits_zero :
    receiveLoop [okFrame "x"] = (["x"], PyExit.normalExit) ∧
    (git_shim ⟨["git", "status"], "/home/user/proj", "/home/user",
        some ["/home/user/proj"], true, [okFrame "x"]⟩).exitStatus = some 0 :=
  ⟨rfl, rfl⟩

/-- C2: for a received sequence of tag-0 frames followed by a first tag-1
frame (then anything), the loop prints exactly the tag-0 payloads in order,
prints nothing after the tag-1 frame, and exits with the tag-1 payload.  In
particular `[0,"x"], [0,"y"], [1,3]` prints `x` then `y` and exits 3. -/
theorem C2_output_then_exit (xs : List String) (c : Int) (rest : List PyVal) :
    receiveLoop (xs.map okFrame ++ exitFrame c :: rest) = (xs, PyExit.exited c) := by
  induction xs with
  | nil => rfl
  | cons x tl ih =>
    show (x :: (receiveLoop (tl.map okFrame ++ exitFrame c :: rest)).1,
          (receiveLoop (tl.map okFrame ++ exitFrame c :: rest)).2) = (x :: tl, PyExit.exited c)
    rw [ih]

/-- C3 counterexample: the claimed equivalence — `classify` returns the empty
root iff no entry is a textual prefix of the working directory — fails when
the managed-directory file contains a blank line.  A blank line strips to the
empty string, which is a textual prefix of every working directory, and
`find_managed_dir` then returns that empty entry, i.e. the empty root, even
though an entry did match. -/
theorem C3_counterexample :
    ¬ (find_managed_dir "a" (some [""]) = "" ↔
       ∀ l ∈ ([""] : List String), ¬ ((pyStrip l).data <+: ("a" : String).data)) := by
  intro h
  exact h.mp rfl "" (List.mem_singleton.mpr rfl) ⟨("a" : String).data, rfl⟩

/-- C3 (amended): for every working directory `d` and list of managed-file
lines in which no line strips to the empty string, `find_managed_dir` returns
the empty root iff no stripped line is a textual string-prefix of `d`.
Matching is purely textual (`os.path.commonprefix`), not path-segment-aware. -/
theorem C3_amended_classify_empty_iff (d : String) (lines : List String)
    (hne : ∀ l ∈ lines, pyStrip l ≠ "") :
    find_managed_dir d (some lines) = "" ↔
      ∀ l ∈ lines, ¬ ((pyStrip l).data <+: d.data) := by
  unfold find_managed_dir
  induction lines with
  | nil => simp [find_managed_dir_loop]
  | cons l ls ih =>
    have hl : pyStrip l ≠ "" := hne l (List.mem_cons_self l ls)
    have hls : ∀ x ∈ ls, pyStrip x ≠ "" := fun x hx => hne x (List.mem_cons_of_mem l hx)
    simp only [find_managed_dir_loop]
    by_cases hm : os_path_commonprefix d (pyStrip l) = pyStrip l
    · rw [if_pos hm]
      have hpre := (os_path_commonprefix_eq_right_iff d (pyStrip l)).mp hm
      constructor
      · intro h; exact absurd h hl
      · intro h; exact absurd hpre (h l (List.mem_cons_self l ls))
    · rw [if_neg hm]
      rw [ih hls]
      constructor
      · intro h x hx
        rcases List.mem_cons.mp hx with h1 | h2
        · subst h1
          exact fun hp => hm ((os_path_commonprefix_eq_right_iff d (pyStrip x)).mpr hp)
        · exact h x h2
      · intro h x hx
        exact h x (List.mem_cons_of_mem l hx)

/-- C3 witness: the amended equivalence evaluated at a concrete input whose
hypothesis (no blank lines) holds. -/
theorem C3_amended_classify_empty_iff_witness :
    (∀ l ∈ (["/b"] : List String), pyStrip l ≠ "") ∧
    (find_managed_dir "/a" (some ["/b"]) = "" ↔
      ∀ l ∈ (["/b"] : List String), ¬ ((pyStrip l).data <+: ("/a" : String).data)) :=
  ⟨by decide, C3_amended_classify_empty_iff "/a" ["/b"] (by decide)⟩

/-- C4: the claim says every malformed frame (wrong length, unknown tag, or
payload type not matching the tag) makes the client fail fatally with a
descriptive error, never silently continuing.  The code performs no payload
type check at all: on the frame `[0, 5]` — tag 0 with an integer payload, a
tag/payload type mismatch — it prints `5` and continues to the next frame,
finishing with the following frame's exit code.  (For wrong-length and
unknown-tag frames the process does die, but from the `NameError` raised by
the undefined name `reply`, not a descriptive protocol error.) -/
theorem C4_type_mismatch_not_fatal :
    receiveLoop [.plist [.pint 0, .pint 5], exitFrame 3] = (["5"], PyExit.exited 3) ∧
    receiveLoop [.plist [.pint 2, .pstr "x"], exitFrame 3] = ([], PyExit.nameError) ∧
    receiveLoop [.plist [.pint 0], exitFrame 3] = ([], PyExit.nameError) :=
  ⟨rfl, rfl, rfl⟩

/-- C5: `handle_intrinsic` handles the invocation iff the argument vector
after the program name is exactly `["rev-parse", "--show-toplevel"]`; when it
is, it prints the managed root and exits 0, and otherwise it returns control
(`none`). -/
theorem C5_intrinsic_exact_match (argv : List String) (root : String) :
    handle_intrinsic argv root =
      if argv.tail = ["rev-parse", "--show-toplevel"] then some (root, 0) else none := by
  unfold handle_intrinsic
  by_cases h : argv.tail = ["rev-parse", "--show-toplevel"]
  · rw [if_pos h]
    cases argv with
    | nil => simp at h
    | cons a as =>
      simp only [List.tail_cons] at h
      subst h
      rw [if_pos]
      exact ⟨by simp, rfl⟩
  · rw [if_neg h, if_neg (fun hc => h hc.2)]

/-- C6: when the connection to the fixed local endpoint fails in a managed,
non-intrinsic invocation, the shim prints exactly the one diagnostic line,
exits with status 1, and never builds or sends a request. -/
theorem C6_connect_failure (e : ShimEnv)
    (hroot : find_managed_dir e.cwd e.managedFile ≠ "")
    (hintr : handle_intrinsic e.argv (find_managed_dir e.cwd e.managedFile) = none)
    (hconn : e.connectOk = false) :
    (git_shim e).printedLines =
      ["Unable to connect to git proxy; is your devbox syncer running?"] ∧
    (git_shim e).exitStatus = some 1 ∧
    (git_shim e).requestSent = none := by
  have hres : git_shim e =
      .connectFail "Unable to connect to git proxy; is your devbox syncer running?" := by
    unfold git_shim
    rw [if_neg hroot, hintr, hconn]
    simp
  rw [hres]
  exact ⟨rfl, rfl, rfl⟩

/-- C6 witness: a concrete managed, non-intrinsic environment whose connect
fails. -/
theorem C6_connect_failure_witness :
    (find_managed_dir "/home/user/proj" (some ["/home/user/proj"]) ≠ "") ∧
    (git_shim ⟨["git", "status"], "/home/user/proj", "/home/user",
        some ["/home/user/proj"], false, []⟩).printedLines =
      ["Unable to connect to git proxy; is your devbox syncer running?"] ∧
    (git_shim ⟨["git", "status"], "/home/user/proj", "/home/user",
        some ["/home/user/proj"], false, []⟩).exitStatus = some 1 ∧
    (git_shim ⟨["git", "status"], "/home/user/proj", "/home/user",
        some ["/home/user/proj"], false, []⟩).requestSent = none :=
  ⟨by decide,
   C6_connect_failure
     ⟨["git", "status"], "/home/user/proj", "/home/user", some ["/home/user/proj"], false, []⟩
     (by decide) (by decide) rfl⟩

/-- C7: classification returns the first line of the managed-directory file,
in file order, whose stripped text is a textual prefix of the working
directory (stripped, as the code compares it); if no line matches, or the
file is absent, it returns the empty root. -/
theorem C7_first_match_or_absent (d : String) (lines : List String) :
    find_managed_dir d none = "" ∧
    find_managed_dir d (some lines) =
      ((lines.find? fun l => (pyStrip l).data.isPrefixOf d.data).map pyStrip).getD "" := by
  refine ⟨rfl, ?_⟩
  unfold find_managed_dir
  induction lines with
  | nil => rfl
  | cons l ls ih =>
    simp only [find_managed_dir_loop]
    by_cases hm : os_path_commonprefix d (pyStrip l) = pyStrip l
    · rw [if_pos hm]
      have hp : ((pyStrip l).data.isPrefixOf d.data) = true :=
        List.isPrefixOf_iff_prefix.mpr ((os_path_commonprefix_eq_right_iff d (pyStrip l)).mp hm)
      have hfind : List.find? (fun x => (pyStrip x).data.isPrefixOf d.data) (l :: ls) = some l :=
        List.find?_cons_of_pos _ hp
      rw [hfind]
      rfl
    · rw [if_neg hm]
      have hnp : ¬ ((pyStrip l).data.isPrefixOf d.data = true) := by
        intro hc
        exact hm ((os_path_commonprefix_eq_right_iff d (pyStrip l)).mpr
          (List.isPrefixOf_iff_prefix.mp hc))
      have hfind : List.find? (fun x => (pyStrip x).data.isPrefixOf d.data) (l :: ls) =
          List.find? (fun x => (pyStrip x).data.isPrefixOf d.data) ls :=
        List.find?_cons_of_neg _ hnp
      rw [hfind]
      exact ih

/-- C8: when classification reports "not managed" (empty root), the shim
replaces the process image with the real binary at the fixed path
`/usr/bin/git`, with argument 0 set to that path and the original arguments
after the program name passed through unchanged — so stdout, stderr and exit
status are the real binary's. -/
theorem C8_passthrough (e : ShimEnv)
    (h : find_managed_dir e.cwd e.managedFile = "") :
    git_shim e = .execv REAL_GIT (REAL_GIT :: e.argv.tail) ∧
    (git_shim e).printedLines = [] ∧ (git_shim e).exitStatus = none := by
  have hres : git_shim e = .execv REAL_GIT (REAL_GIT :: e.argv.tail) := by
    unfold git_shim
    rw [if_pos h]
  exact ⟨hres, by rw [hres]; rfl, by rw [hres]; rfl⟩

/-- C8 witness: with the managed-directory file absent, a concrete invocation
execs the real binary with the arguments passed through. -/
theorem C8_passthrough_witness :
    (find_managed_dir "/tmp/w" (none : Option (List String)) = "") ∧
    git_shim ⟨["git", "log", "-n", "2"], "/tmp/w", "/home/user", none, true, []⟩ =
      .execv "/usr/bin/git" ["/usr/bin/git", "log", "-n", "2"] :=
  ⟨rfl,
   (C8_passthrough ⟨["git", "log", "-n", "2"], "/tmp/w", "/home/user", none, true, []⟩ rfl).1⟩

/-- C9: in the proxied branch the request's working-directory field is the
cwd made relative to the home directory and its command field is the literal
`"git"` followed by the original arguments; the encoded JSON object
deserializes back to exactly those two values (round-trip). -/
theorem C9_request_roundtrip (e : ShimEnv) (req : ProxyRequest)
    (out : List String) (ending : PyExit)
    (h : git_shim e = .proxied req out ending) :
    req.workingDir = relpath e.cwd e.home ∧
    req.cmd = "git" :: e.argv.tail ∧
    decodeRequest (encodeRequest req) = some req := by
  have hreq := git_shim_proxied_request e req out ending h
  subst hreq
  exact ⟨rfl, rfl, decode_encode _⟩

/-- C9 witness: for working directory `~/proj/sub` (home `/home/user`) and
command arguments `["status"]`, the proxied request is
`{ workingDir: "proj/sub", cmd: ["git", "status"] }` and round-trips. -/
theorem C9_request_roundtrip_witness :
    git_shim ⟨["git", "status"], "/home/user/proj/sub", "/home/user",
        some ["/home/user/proj"], true, [exitFrame 0]⟩ =
      .proxied ⟨"proj/sub", ["git", "status"]⟩ [] (PyExit.exited 0) ∧
    ("proj/sub" : String) = relpath "/home/user/proj/sub" "/home/user" ∧
    (["git", "status"] : List String) = "git" :: (["git", "status"] : List String).tail ∧
    decodeRequest (encodeRequest ⟨"proj/sub", ["git", "status"]⟩) =
      some ⟨"proj/sub", ["git", "status"]⟩ :=
  ⟨rfl,
   (C9_request_roundtrip
     ⟨["git", "status"], "/home/user/proj/sub", "/home/user",
       some ["/home/user/proj"], true, [exitFrame 0]⟩
     ⟨"proj/sub", ["git", "status"]⟩ [] (PyExit.exited 0) rfl).1,
   (C9_request_roundtrip
     ⟨["git", "status"], "/home/user/proj/sub", "/home/user",
       some ["/home/user/proj"], true, [exitFrame 0]⟩
     ⟨"proj/sub", ["git", "status"]⟩ [] (PyExit.exited 0) rfl).2.1,
   (C9_request_roundtrip
     ⟨["git", "status"], "/home/user/proj/sub", "/home/user",
       some ["/home/user/proj"], true, [exitFrame 0]⟩
     ⟨"proj/sub", ["git", "status"]⟩ [] (PyExit.exited 0) rfl).2.2⟩

theorem joinSegs_cons_starts (s : String) (rest : List String) :
    ∃ t, joinSegs (s :: rest) = s ++ t := by
  cases rest with
  | nil => exact ⟨"", by simp [joinSegs]⟩
  | cons r rs => exact ⟨"/" ++ joinSegs (r :: rs), by simp [joinSegs, String.append_assoc]⟩

/-- C10: when the working directory is not under the home directory (its
segment list does not extend the home's), the `workingDir` field the shim
sends is still a relative path but begins with a `".."` segment — the result
of `os.path.relpath` from home — so the "relative to home" field can denote a
location outside the home directory. -/
theorem C10_outside_home_dotdot (e : ShimEnv) (req : ProxyRequest)
    (out : List String) (ending : PyExit)
    (h : git_shim e = .proxied req out ending)
    (hout : ¬ (pathSegs e.home <+: pathSegs e.cwd)) :
    (relSegs e.cwd e.home).head? = some ".." ∧
    ∃ t : String, req.workingDir = ".." ++ t := by
  have hreq := git_shim_proxied_request e req out ending h
  have hlt := commonprefix_length_lt (pathSegs e.home) (pathSegs e.cwd) hout
  have hk : (pathSegs e.home).length -
      ( commonprefix (pathSegs e.home) (pathSegs e.cwd)).length ≠ 0 :=
    Nat.sub_ne_zero_of_lt hlt
  obtain ⟨k, hk'⟩ := Nat.exists_eq_succ_of_ne_zero hk
  have hsegs : relSegs e.cwd e.home = ".." ::
      (List.replicate k ".." ++
        (pathSegs e.cwd).drop ( commonprefix (pathSegs e.home) (pathSegs e.cwd)).length) := by
    simp only [relSegs]
    rw [hk', List.replicate_succ, List.cons_append]
  have hrel : relpath e.cwd e.home = joinSegs (relSegs e.cwd e.home) := by
    unfold relpath
    rw [hsegs]
  refine ⟨by rw [hsegs]; rfl, ?_⟩
  obtain ⟨t, ht⟩ := joinSegs_cons_starts ".."
    (List.replicate k ".." ++
      (pathSegs e.cwd).drop ( commonprefix (pathSegs e.home) (pathSegs e.cwd)).length)
  refine ⟨t, ?_⟩
  rw [hreq]
  show relpath e.cwd e.home = ".." ++ t
  rw [hrel, hsegs, ht]

/-- C10 witness: from working directory `/etc/x` with home `/home/user`, the
request's workingDir is `../../etc/x`, which starts with `..`. -/
theorem C10_outside_home_dotdot_witness :
    git_shim ⟨["git", "status"], "/etc/x", "/home/user", some ["/etc"], true, []⟩ =
      .proxied ⟨"../../etc/x", ["git", "status"]⟩ [] PyExit.normalExit ∧
    ¬ (pathSegs "/home/user" <+: pathSegs "/etc/x") ∧
    (relSegs "/etc/x" "/home/user").head? = some ".." ∧
    ∃ t : String, ("../../etc/x" : String) = ".." ++ t :=
  ⟨rfl, by decide,
   (C10_outside_home_dotdot
     ⟨["git", "status"], "/etc/x", "/home/user", some ["/etc"], true, []⟩
     ⟨"../../etc/x", ["git", "status"]⟩ [] PyExit.normalExit rfl (by decide)).1,
   (C10_outside_home_dotdot
     ⟨["git", "status"], "/etc/x", "/home/user", some ["/etc"], true, []⟩
     ⟨"../../etc/x", ["git", "status"]⟩ [] PyExit.normalExit rfl (by decide)).2⟩
